import Mathlib

/-!
Verification development for the hollow-platformer combat core.

The definitions below are shallow embeddings of the Python sources:
* `src/systems/combat_feel.py`    (`CombatFeelEnhancer`)
* `src/systems/hollow_knight_combat.py` (`HollowKnightCombat`)
* `src/systems/combat_system.py`  (`MeleeAttack.calculate_knockback`)
* `src/entities/enemies/base_boss.py`   (`BaseBoss` and its state machine)

Modelling conventions:
* Python ints become `Nat`/`Int`; Python floats become `ℚ` (the exact
  real-arithmetic value of each float expression; every comparison proved
  below is far from any rounding boundary, and the integer-vs-0.6-scaled
  comparisons in `try_attack` coincide with IEEE double semantics for all
  durations occurring in the program, which we note at the definition).
* Mutating methods become functions `State → State` (or `State → α × State`
  when the method also returns a value).
* `random` draws are passed in as explicit oracle arguments.
* Purely cosmetic effects with no echo in the modelled state (particle
  spawning, sound playback) are omitted; every field read or written by the
  modelled control flow is present.
-/

/-! ## combat_feel.py : CombatFeelEnhancer -/

/-- State of `CombatFeelEnhancer` (src/systems/combat_feel.py).
`combo_window`, `max_combo` and `cancel_window_start` are set once in
`__init__` and never reassigned, but are kept as fields as in the source. -/
structure CombatFeel where
  hit_pause_duration : ℕ
  hit_pause_timer : ℕ
  shake_intensity : ℚ
  shake_duration : ℕ
  shake_timer : ℕ
  attack_lock_timer : ℕ
  combo_window : ℕ
  combo_timer : ℕ
  combo_count : ℕ
  max_combo : ℕ
  can_cancel : Bool
  cancel_window_start : ℕ
deriving DecidableEq

/-- `CombatFeelEnhancer.__init__`. -/
def CombatFeel.init : CombatFeel :=
  { hit_pause_duration := 0, hit_pause_timer := 0
    shake_intensity := 0, shake_duration := 0, shake_timer := 0
    attack_lock_timer := 0
    combo_window := 30, combo_timer := 0, combo_count := 0, max_combo := 4
    can_cancel := false, cancel_window_start := 5 }

/-- `CombatFeelEnhancer.trigger_hit_pause`. -/
def CombatFeel.trigger_hit_pause (c : CombatFeel) (intensity : ℕ) : CombatFeel :=
  { c with hit_pause_duration := intensity, hit_pause_timer := intensity }

/-- `CombatFeelEnhancer.trigger_screen_shake`. -/
def CombatFeel.trigger_screen_shake (c : CombatFeel) (intensity : ℚ) (duration : ℕ) :
    CombatFeel :=
  let si := max c.shake_intensity intensity
  let sd := max c.shake_duration duration
  { c with shake_intensity := si, shake_duration := sd, shake_timer := sd }

/-- `CombatFeelEnhancer.update`.  Returns `(is_paused, new state)`: while the
hit-pause timer is positive the method decrements it and returns `True`
immediately, skipping every other timer update (early `return True`). -/
def CombatFeel.update (c : CombatFeel) : Bool × CombatFeel :=
  if 0 < c.hit_pause_timer then
    (true, { c with hit_pause_timer := c.hit_pause_timer - 1 })
  else
    let c := if 0 < c.shake_timer then { c with shake_timer := c.shake_timer - 1 } else c
    let c := if 0 < c.attack_lock_timer then
               { c with attack_lock_timer := c.attack_lock_timer - 1 } else c
    let c := if 0 < c.combo_timer then { c with combo_timer := c.combo_timer - 1 }
             else { c with combo_count := 0 }
    (false, c)

/-- `CombatFeelEnhancer.start_attack_lock`. -/
def CombatFeel.start_attack_lock (c : CombatFeel) (duration : ℕ) : CombatFeel :=
  { c with attack_lock_timer := duration }

/-- `CombatFeelEnhancer.register_hit`. -/
def CombatFeel.register_hit (c : CombatFeel) (is_heavy : Bool) : CombatFeel :=
  let c := if is_heavy then (c.trigger_hit_pause 5).trigger_screen_shake 8 12
           else (c.trigger_hit_pause 2).trigger_screen_shake 4 6
  if 0 < c.combo_timer ∧ c.combo_count < c.max_combo then
    { c with combo_count := c.combo_count + 1, combo_timer := c.combo_window }
  else
    { c with combo_count := 1, combo_timer := c.combo_window }

/-! ## Geometry: pygame rectangles -/

/-- A `pygame.Rect` (integer position and size). -/
structure Rect where
  x : Int
  y : Int
  w : Int
  h : Int
deriving DecidableEq

/-- `pygame.Rect.centerx` (`x + w // 2`, Python floor division). -/
def Rect.centerx (r : Rect) : Int := r.x + Int.fdiv r.w 2

/-- `pygame.Rect.centery`. -/
def Rect.centery (r : Rect) : Int := r.y + Int.fdiv r.h 2

/-- `pygame.Rect.colliderect`: true when the interiors overlap on both axes
(rectangles that merely touch do not collide). -/
def Rect.colliderect (a b : Rect) : Bool :=
  decide (a.x < b.x + b.w) && decide (b.x < a.x + a.w) &&
  decide (a.y < b.y + b.h) && decide (b.y < a.y + a.h)

/-! ## hollow_knight_combat.py : HollowKnightCombat -/

/-- `AttackType` enum. -/
inductive AttackType
  | light
  | heavy
  | upward
deriving DecidableEq

/-- `AttackPhase` enum (`NONE` is the idle phase). -/
inductive AttackPhase
  | none
  | windup
  | active
  | recovery
deriving DecidableEq

/-- The part of the `Player` object read and written by `HollowKnightCombat`:
position (rect center), facing, ground flag, horizontal velocity, and the
attached `CombatFeelEnhancer` (`player.combat_feel`, present on the repo's
player). -/
structure PlayerState where
  on_ground : Bool
  facing_right : Bool
  velocity_x : ℚ
  centerx : Int
  centery : Int
  feel : CombatFeel
deriving DecidableEq

/-- State of `HollowKnightCombat`.  `combo_window` (15), `attack_range` (45)
and `attack_arc` (120) are constants of `__init__`, modelled as the constants
below; `hit_enemies` is the set of already-hit enemy identities, modelled as a
list queried by membership. -/
structure HKCombat where
  player : PlayerState
  is_attacking : Bool
  attack_type : Option AttackType
  attack_phase : AttackPhase
  attack_timer : ℕ
  attack_frame : ℕ
  combo_count : ℕ
  combo_timer : ℕ
  next_attack_queued : Bool
  hit_enemies : List ℕ
deriving DecidableEq

/-- `self.combo_window = 15`. -/
def HKCombat.combo_window : ℕ := 15

/-- `self.attack_range = 45`. -/
def HKCombat.attack_range : ℕ := 45

/-- `HollowKnightCombat.__init__` state (given the attached player). -/
def HKCombat.init (p : PlayerState) : HKCombat :=
  { player := p, is_attacking := false, attack_type := Option.none
    attack_phase := AttackPhase.none, attack_timer := 0, attack_frame := 0
    combo_count := 0, combo_timer := 0, next_attack_queued := false
    hit_enemies := [] }

/-- `get_windup_duration` (the trailing `return 4` is the `attack_type = None`
fallthrough). -/
def HKCombat.get_windup_duration (s : HKCombat) : ℕ :=
  match s.attack_type with
  | some AttackType.light => 4
  | some AttackType.heavy => 8
  | some AttackType.upward => 5
  | Option.none => 4

/-- `get_active_duration`. -/
def HKCombat.get_active_duration (s : HKCombat) : ℕ :=
  match s.attack_type with
  | some AttackType.light => 8
  | some AttackType.heavy => 12
  | some AttackType.upward => 10
  | Option.none => 8

/-- `get_recovery_duration`. -/
def HKCombat.get_recovery_duration (s : HKCombat) : ℕ :=
  match s.attack_type with
  | some AttackType.light => 10
  | some AttackType.heavy => 18
  | some AttackType.upward => 12
  | Option.none => 10

/-- `get_total_duration`. -/
def HKCombat.get_total_duration (s : HKCombat) : ℕ :=
  s.get_windup_duration + s.get_active_duration + s.get_recovery_duration

/-- `_start_attack`: initialise attack state, advance the combo, apply ground
momentum, and lock movement for the windup via `combat_feel.start_attack_lock`.
Particle/audio side effects are cosmetic and outside the modelled state. -/
def HKCombat.start_attack (s : HKCombat) : HKCombat :=
  let s := { s with is_attacking := true, attack_phase := AttackPhase.windup
                    attack_timer := 0, attack_frame := 0, hit_enemies := [] }
  let s := if 0 < s.combo_timer then { s with combo_count := min (s.combo_count + 1) 2 }
           else { s with combo_count := 0 }
  let s := { s with combo_timer := HKCombat.combo_window }
  let s :=
    if s.player.on_ground then
      let momentum : ℚ := if s.attack_type = some AttackType.light then 5/2 else 2
      if s.player.facing_right then
        { s with player := { s.player with velocity_x := max s.player.velocity_x momentum } }
      else
        { s with player := { s.player with velocity_x := min s.player.velocity_x (-momentum) } }
    else s
  { s with player :=
      { s.player with feel := s.player.feel.start_attack_lock s.get_windup_duration } }

/-- The condition under which an in-progress attack lets `try_attack` queue a
follow-up: late active phase (`attack_timer > 0.6 * active_duration`) or
recovery.  `0.6` is exact here: for the active durations 8, 10 and 12 the IEEE
double products are 4.7999…, 6.0 and 7.1999…, and comparison against an
integer timer coincides with the exact rational `3/5` in every case. -/
def HKCombat.in_cancel_window (s : HKCombat) : Bool :=
  (s.attack_phase = AttackPhase.active ∧
     (s.get_active_duration : ℚ) * (3/5) < (s.attack_timer : ℚ))
  ∨ s.attack_phase = AttackPhase.recovery

/-- `try_attack(attack_type, is_up_attack)`: while an attack is in progress it
returns `False`, additionally setting `next_attack_queued` when in the late
active phase or in recovery; otherwise it picks the attack type (any string
other than `'heavy'` means light) and starts the attack, returning `True`. -/
def HKCombat.try_attack (s : HKCombat) (heavy : Bool) (is_up_attack : Bool) :
    Bool × HKCombat :=
  if s.is_attacking then
    if s.in_cancel_window then (false, { s with next_attack_queued := true })
    else (false, s)
  else
    let s :=
      if is_up_attack then { s with attack_type := some AttackType.upward }
      else if heavy then { s with attack_type := some AttackType.heavy }
      else { s with attack_type := some AttackType.light }
    (true, s.start_attack)

/-- `_end_attack`: restart immediately when a combo follow-up is queued and the
chain is not exhausted, otherwise return to the idle (`NONE`) phase. -/
def HKCombat.end_attack (s : HKCombat) : HKCombat :=
  if s.next_attack_queued ∧ s.combo_count < 2 then
    HKCombat.start_attack { s with next_attack_queued := false }
  else
    { s with is_attacking := false, attack_phase := AttackPhase.none
             attack_timer := 0, attack_frame := 0, next_attack_queued := false }

/-- The combo-timer block at the top of `update`: decrement the window timer,
and clear `combo_count` when it reaches 0. -/
def HKCombat.tick_combo (s : HKCombat) : HKCombat :=
  if 0 < s.combo_timer then
    let s := { s with combo_timer := s.combo_timer - 1 }
    if s.combo_timer = 0 then { s with combo_count := 0 } else s
  else s

/-- The attack block of `update`: advance the attack timer and perform phase
transitions.  `_enter_active_phase` only spawns particles and audio besides
setting the phase; `_enter_recovery_phase` only sets the phase. -/
def HKCombat.tick_attack (s : HKCombat) : HKCombat :=
  if !s.is_attacking then s
  else
    let s := { s with attack_timer := s.attack_timer + 1 }
    if s.attack_phase = AttackPhase.windup then
      if s.get_windup_duration ≤ s.attack_timer then
        { s with attack_phase := AttackPhase.active }
      else s
    else if s.attack_phase = AttackPhase.active then
      if s.get_windup_duration + s.get_active_duration ≤ s.attack_timer then
        { s with attack_phase := AttackPhase.recovery }
      else s
    else if s.attack_phase = AttackPhase.recovery then
      if s.get_total_duration ≤ s.attack_timer then s.end_attack else s
    else s

/-- `update`: the combo-timer block followed by the attack block. -/
def HKCombat.update (s : HKCombat) : HKCombat :=
  s.tick_combo.tick_attack

/-- `get_hitbox`: `None` outside the active phase, otherwise a 45×45 box above
the player (upward slash) or in front of the facing direction. -/
def HKCombat.get_hitbox (s : HKCombat) : Option Rect :=
  if s.attack_phase ≠ AttackPhase.active then Option.none
  else
    let cx := s.player.centerx
    let cy := s.player.centery
    let r : Int := HKCombat.attack_range
    match s.attack_type with
    | some AttackType.upward => some ⟨cx - Int.fdiv r 2, cy - r, r, r⟩
    | _ =>
      if s.player.facing_right then some ⟨cx, cy - Int.fdiv r 2, r, r⟩
      else some ⟨cx - r, cy - Int.fdiv r 2, r, r⟩

/-- An enemy as seen by `check_hit`: an identity (`id(enemy)`) and its rect. -/
structure Enemy where
  ident : ℕ
  rect : Rect
deriving DecidableEq

/-- `_is_in_attack_arc`, rendered in exact arithmetic.  The Python code takes
`atan2` of the integer offsets, normalises to degrees and accepts angular
distance ≤ `attack_arc / 2 = 60°` from the attack direction (right, left, or
up).  For a nonzero integer offset `(dx, dy)` this is equivalent to
`0 ≤ dot ∧ dx² + dy² ≤ 4·dot²` where `dot` is the dot product with the unit
attack direction (cos θ ≥ 1/2); no nonzero integer vector lies exactly on the
60° boundary (that would need `dy² = 3·dx²`), so float `atan2` rounding cannot
flip the test.  For `(0, 0)` Python's `atan2(0, 0) = 0`, i.e. angle 0, which is
inside the arc only when the attack direction is rightward. -/
def HKCombat.is_in_attack_arc (s : HKCombat) (e : Enemy) : Bool :=
  let dx : Int := e.rect.centerx - s.player.centerx
  let dy : Int := e.rect.centery - s.player.centery
  if dx = 0 ∧ dy = 0 then
    decide (s.attack_type ≠ some AttackType.upward) && s.player.facing_right
  else
    let dot : Int :=
      match s.attack_type with
      | some AttackType.upward => -dy
      | _ => if s.player.facing_right then dx else -dx
    decide (0 ≤ dot) && decide (dx ^ 2 + dy ^ 2 ≤ 4 * dot ^ 2)

/-- `check_hit(enemy)`: returns whether the hit registers, together with the
updated state.  Inactive phase, an already-hit enemy, a rect miss or an arc
miss all return `False` with the state unchanged; a confirmed hit records the
enemy identity and fires `combat_feel.register_hit`.  The `if hitbox and …`
truthiness test is the `Option` match (the 45×45 hitbox is never falsy). -/
def HKCombat.check_hit (s : HKCombat) (e : Enemy) : Bool × HKCombat :=
  if !s.is_attacking ∨ s.attack_phase ≠ AttackPhase.active then (false, s)
  else if e.ident ∈ s.hit_enemies then (false, s)
  else
    match s.get_hitbox with
    | Option.none => (false, s)
    | some hb =>
      if hb.colliderect e.rect then
        if s.is_in_attack_arc e then
          let s := { s with hit_enemies := e.ident :: s.hit_enemies }
          let is_heavy := s.attack_type = some AttackType.heavy
          (true, { s with player :=
             { s.player with feel := s.player.feel.register_hit is_heavy } })
        else (false, s)
      else (false, s)

/-! ## Scenario state for the light-attack timeline (spec §8) -/

/-- An airborne player at the origin facing right with no prior combat-feel
state. -/
def scenarioPlayer : PlayerState :=
  { on_ground := false, facing_right := true, velocity_x := 0
    centerx := 0, centery := 0, feel := CombatFeel.init }

/-- The combat state directly after `try_attack('light')` succeeds on a fresh
instance (tick 0 of the scenario). -/
def lightStart : HKCombat :=
  ((HKCombat.init scenarioPlayer).try_attack false false).2

/-- The scenario state after `n` calls of `update`. -/
def lightAt : ℕ → HKCombat
  | 0 => lightStart
  | n + 1 => (lightAt n).update

/-! ## combat_system.py : MeleeAttack.calculate_knockback

Only the fields read by `calculate_knockback` are modelled:
`base_knockback` (12 in `__init__`), `is_heavy_attack`, `combo_count` and the
normalized `attack_direction`. -/

/-- The `MeleeAttack` state consumed by `calculate_knockback`. -/
structure MeleeKnockbackState where
  base_knockback : ℚ
  is_heavy_attack : Bool
  combo_count : ℕ
  attack_direction : ℚ × ℚ
deriving DecidableEq

/-- `MeleeAttack.calculate_knockback`, in exact arithmetic: heavy attacks
scale the base by 1.8, combo scales by `1 + (combo_count - 1) × 0.1`, the
vertical component is damped to 0.7× and offset by −2. -/
def MeleeKnockbackState.calculate_knockback (m : MeleeKnockbackState) : ℚ × ℚ :=
  let base_kb := if m.is_heavy_attack then m.base_knockback * (9/5) else m.base_knockback
  let combo_mult : ℚ := 1 + ((m.combo_count : ℚ) - 1) * (1/10)
  let knockback_force := base_kb * combo_mult
  let kb_x := m.attack_direction.1 * knockback_force
  let kb_y := m.attack_direction.2 * knockback_force * (7/10) - 2
  (kb_x, kb_y)

/-- The scalar factor applied to the normalized attack direction in
`calculate_knockback` (the local `knockback_force`). -/
def MeleeKnockbackState.knockback_force (m : MeleeKnockbackState) : ℚ :=
  (if m.is_heavy_attack then m.base_knockback * (9/5) else m.base_knockback) *
    (1 + ((m.combo_count : ℚ) - 1) * (1/10))

/-- Squared Euclidean magnitude of a rational vector (used to compare the
knockback magnitude against bounds without square roots). -/
def sqMag (v : ℚ × ℚ) : ℚ := v.1 ^ 2 + v.2 ^ 2

/-! ## base_boss.py : BaseBoss -/

/-- `BossState` enum. -/
inductive BossState
  | idle
  | taunt
  | pattern_select
  | attack_windup
  | attack_execute
  | attack_recovery
  | vulnerable
  | phase_transition
  | stunned
  | defeated
deriving DecidableEq

/-- `AttackPattern` (name and telegraph color are presentation-only and
omitted; `cooldown` starts at 0, `max_cooldown` at 180). -/
structure BossAttackPattern where
  damage : Int
  windup_frames : ℕ
  execute_frames : ℕ
  recovery_frames : ℕ
  is_special : Bool
  cooldown : Int
  max_cooldown : Int
deriving DecidableEq

/-- `BossPhase`. -/
structure BossPhase where
  phase_number : ℕ
  health_threshold : ℚ
  attack_patterns : List BossAttackPattern
  attack_frequency : ℕ
  special_attack_chance : ℚ
  transition_played : Bool
deriving DecidableEq

/-- Replace the element at index `i` (Python in-place mutation of a list
element's fields through a reference). -/
def modifyAt {α : Type} : List α → ℕ → (α → α) → List α
  | [], _, _ => []
  | a :: as, 0, f => f a :: as
  | a :: as, n + 1, f => a :: modifyAt as n f

/-- State of `BaseBoss`.  `current_attack` is a Python reference to one of the
patterns inside `phases`; it is modelled as the pair of indices
(phase index, pattern index within that phase), so that the cooldown
write-back in `_update_attack_recovery` lands on the pooled pattern exactly as
the reference mutation does.  `target_player` stores only the identity of the
player object passed to `update_state_machine`.  Presentation-only fields that
no modelled code reads (`rect`, `facing_right`, `on_ground`, `intro_played`,
`arena_bounds`) are outside the state machine embedding. -/
structure BaseBoss where
  max_health : Int
  current_health : Int
  velocity_x : ℚ
  velocity_y : ℚ
  state : BossState
  state_timer : Int
  state_frame : ℕ
  phases : List BossPhase
  current_phase_index : ℕ
  phase_transition_duration : ℕ
  current_attack : Option (ℕ × ℕ)
  attack_timer : Int
  attack_cooldown : Int
  is_invulnerable : Bool
  damage_flash_timer : Int
  target_player : Option ℕ
  decision_timer : ℕ
  decision_cooldown : ℕ
  telegraph_alpha : Int
  shake_offset_x : Int
  shake_offset_y : Int
  is_defeated : Bool
  can_take_damage : Bool
deriving DecidableEq

/-- `current_health / max_health` (exact; the game never constructs a boss
with `max_health = 0`, where Python would raise `ZeroDivisionError` while the
rational model yields 0). -/
def BaseBoss.health_percent (b : BaseBoss) : ℚ :=
  (b.current_health : ℚ) / (b.max_health : ℚ)

/-- Index of `get_current_phase()`'s result inside `phases`: the first phase
(in the stored order, descending thresholds after `add_phase`) whose threshold
is ≥ the health fraction, else the last phase (`self.phases[-1]`); `none` when
there are no phases.  `phases.index(current_phase)` in
`check_phase_transition` recovers this same index. -/
def BaseBoss.current_phase_idx (b : BaseBoss) : Option ℕ :=
  if b.phases.isEmpty then Option.none
  else
    match b.phases.findIdx? (fun p => b.health_percent ≤ p.health_threshold) with
    | some i => some i
    | Option.none => some (b.phases.length - 1)

/-- `get_current_phase`. -/
def BaseBoss.get_current_phase (b : BaseBoss) : Option BossPhase :=
  b.current_phase_idx.bind (fun i => b.phases[i]?)

/-- Dereference a `current_attack` index pair. -/
def BaseBoss.pattern_at (b : BaseBoss) (r : ℕ × ℕ) : Option BossAttackPattern :=
  (b.phases[r.1]?).bind (fun ph => ph.attack_patterns[r.2]?)

/-- `check_phase_transition`: returns the transition decision together with
the (possibly `current_phase_index`-updated) state. -/
def BaseBoss.check_phase_transition (b : BaseBoss) : Bool × BaseBoss :=
  match b.current_phase_idx with
  | Option.none => (false, b)
  | some pi =>
    match b.phases[pi]? with
    | Option.none => (false, b)
    | some ph =>
      if pi ≠ b.current_phase_index then
        if !ph.transition_played then (true, { b with current_phase_index := pi })
        else (false, b)
      else (false, b)

/-- `trigger_phase_transition`: enter the transition state, set
invulnerability, and mark the (new) current phase's `transition_played`. -/
def BaseBoss.trigger_phase_transition (b : BaseBoss) : BaseBoss :=
  let b := { b with state := BossState.phase_transition
                    state_timer := (b.phase_transition_duration : Int)
                    is_invulnerable := true }
  match b.current_phase_idx with
  | Option.none => b
  | some pi =>
    { b with phases := modifyAt b.phases pi (fun p => { p with transition_played := true }) }

/-- `trigger_defeat`. -/
def BaseBoss.trigger_defeat (b : BaseBoss) : BaseBoss :=
  { b with state := BossState.defeated, is_defeated := true, can_take_damage := false }

/-- The un-guarded body of `take_damage(damage, knockback_x, knockback_y)`:
subtract health, set the damage flash, apply knockback to the velocity, and
possibly fire a phase transition. -/
def BaseBoss.apply_hit (b : BaseBoss) (damage : Int) (knockback_x knockback_y : ℚ) :
    BaseBoss :=
  let b := { b with current_health := b.current_health - damage
                    damage_flash_timer := 10
                    velocity_x := b.velocity_x + knockback_x
                    velocity_y := b.velocity_y + knockback_y }
  let r := b.check_phase_transition
  if r.1 then r.2.trigger_phase_transition else r.2

/-- `take_damage`, continued: the guard, the hit application above, and the
defeat check. -/
def BaseBoss.take_damage (b : BaseBoss) (damage : Int) (knockback_x knockback_y : ℚ) :
    BaseBoss :=
  if b.is_invulnerable ∨ b.can_take_damage = false then b
  else
    let b := b.apply_hit damage knockback_x knockback_y
    if b.current_health ≤ 0 then BaseBoss.trigger_defeat { b with current_health := 0 }
    else b

/-- `select_attack_pattern`, with the two `random` draws passed in: `u` is the
`random.random()` roll against `special_attack_chance` and `choice` indexes
the uniform `random.choice` (taken modulo the candidate count).  Returns the
reference (index pair) of the chosen pattern. -/
def BaseBoss.select_attack_pattern (b : BaseBoss) (u : ℚ) (choice : ℕ) :
    Option (ℕ × ℕ) :=
  match b.current_phase_idx with
  | Option.none => Option.none
  | some pi =>
    match b.phases[pi]? with
    | Option.none => Option.none
    | some ph =>
      let avail := (List.range ph.attack_patterns.length).filter
        (fun qi => match ph.attack_patterns[qi]? with
                   | some p => decide (p.cooldown ≤ 0)
                   | Option.none => false)
      if avail.isEmpty then Option.none
      else
        let specials := avail.filter
          (fun qi => match ph.attack_patterns[qi]? with
                     | some p => p.is_special
                     | Option.none => false)
        if u < ph.special_attack_chance ∧ !specials.isEmpty then
          some (pi, specials.getD (choice % specials.length) 0)
        else
          some (pi, avail.getD (choice % avail.length) 0)

/-- The part of `update_state_machine` that runs before the state dispatch:
advance `state_frame`, record the player, tick the current phase's pattern
cooldowns, and tick `attack_cooldown` and `damage_flash_timer`. -/
def BaseBoss.tick_pre (b : BaseBoss) (pid : ℕ) : BaseBoss :=
  let tickPat : BossAttackPattern → BossAttackPattern := fun p =>
    if 0 < p.cooldown then { p with cooldown := p.cooldown - 1 } else p
  let tickPhase : BossPhase → BossPhase := fun ph =>
    { ph with attack_patterns := ph.attack_patterns.map tickPat }
  let b : BaseBoss := { b with state_frame := b.state_frame + 1, target_player := some pid }
  let newPhases : List BossPhase :=
    match b.current_phase_idx with
    | Option.none => b.phases
    | some pi => modifyAt b.phases pi tickPhase
  let b : BaseBoss := { b with phases := newPhases }
  let b : BaseBoss :=
    if 0 < b.attack_cooldown then { b with attack_cooldown := b.attack_cooldown - 1 } else b
  if 0 < b.damage_flash_timer then { b with damage_flash_timer := b.damage_flash_timer - 1 }
  else b

/-- `update_state_machine(player)`: the per-tick state machine step.  The
oracle arguments stand for the `random` draws a tick can consume: `u` and
`choice` feed `select_attack_pattern` (PATTERN_SELECT), and `sx`, `sy` are the
`randint(-5, 5)` shake offsets of PHASE_TRANSITION.  In states whose Python
branch reads `current_attack` through a dangling reference the model falls
back to the same `state = IDLE` escape the `if not self.current_attack`
guard provides (the dereference cannot fail under the reference semantics).
`execute_attack_logic` is a no-op in the base class. -/
def BaseBoss.update_state_machine (b : BaseBoss) (pid : ℕ) (u : ℚ) (choice : ℕ)
    (sx sy : Int) : BaseBoss :=
  let b := b.tick_pre pid
  match b.state with
  | BossState.idle =>
    let b := { b with decision_timer := b.decision_timer + 1 }
    if b.decision_cooldown ≤ b.decision_timer ∧ b.attack_cooldown ≤ 0 then
      { b with state := BossState.pattern_select, state_frame := 0, decision_timer := 0 }
    else b
  | BossState.taunt =>
    if 60 ≤ b.state_frame then { b with state := BossState.idle, state_frame := 0 } else b
  | BossState.pattern_select =>
    let ca := b.select_attack_pattern u choice
    let b := { b with current_attack := ca }
    match ca with
    | some r =>
      match b.pattern_at r with
      | some p => { b with state := BossState.attack_windup, state_frame := 0
                           attack_timer := (p.windup_frames : Int) }
      | Option.none => { b with state := BossState.attack_windup, state_frame := 0 }
    | Option.none => { b with state := BossState.idle, state_frame := 0 }
  | BossState.attack_windup =>
    match b.current_attack with
    | Option.none => { b with state := BossState.idle }
    | some r =>
      match b.pattern_at r with
      | Option.none => { b with state := BossState.idle }
      | some p =>
        let b := { b with telegraph_alpha :=
                     ((b.state_frame : Int) * 200) / (p.windup_frames : Int) }
        if p.windup_frames ≤ b.state_frame then
          { b with state := BossState.attack_execute, state_frame := 0
                   attack_timer := (p.execute_frames : Int) }
        else b
  | BossState.attack_execute =>
    match b.current_attack with
    | Option.none => { b with state := BossState.idle }
    | some r =>
      match b.pattern_at r with
      | Option.none => { b with state := BossState.idle }
      | some p =>
        if p.execute_frames ≤ b.state_frame then
          { b with state := BossState.attack_recovery, state_frame := 0
                   attack_timer := (p.recovery_frames : Int) }
        else b
  | BossState.attack_recovery =>
    match b.current_attack with
    | Option.none => { b with state := BossState.idle }
    | some r =>
      match b.pattern_at r with
      | Option.none => { b with state := BossState.idle }
      | some p =>
        if p.recovery_frames ≤ b.state_frame then
          let setCd : BossAttackPattern → BossAttackPattern :=
            fun q => { q with cooldown := q.max_cooldown }
          let setPh : BossPhase → BossPhase :=
            fun ph => { ph with attack_patterns := modifyAt ph.attack_patterns r.2 setCd }
          let b : BaseBoss := { b with phases := modifyAt b.phases r.1 setPh }
          { b with attack_cooldown := 60, current_attack := Option.none
                   telegraph_alpha := 0, state := BossState.idle, state_frame := 0 }
        else b
  | BossState.vulnerable =>
    if 120 ≤ b.state_frame then { b with state := BossState.idle, state_frame := 0 } else b
  | BossState.phase_transition =>
    let b := if b.state_frame % 10 < 5 then { b with shake_offset_x := sx, shake_offset_y := sy }
             else { b with shake_offset_x := 0, shake_offset_y := 0 }
    if b.phase_transition_duration ≤ b.state_frame then
      { b with is_invulnerable := false, state := BossState.taunt, state_frame := 0
               shake_offset_x := 0, shake_offset_y := 0 }
    else b
  | BossState.stunned =>
    if 120 ≤ b.state_frame then { b with state := BossState.idle, state_frame := 0 } else b
  | BossState.defeated => b

/-! ## Concrete states used by the claim theorems and witnesses -/

/-- A concrete mid-active light attack that has already hit enemy 7. -/
def c2state : HKCombat :=
  { player := scenarioPlayer, is_attacking := true
    attack_type := some AttackType.light, attack_phase := AttackPhase.active
    attack_timer := 5, attack_frame := 0, combo_count := 0, combo_timer := 10
    next_attack_queued := false, hit_enemies := [7] }

/-- Enemy 7, overlapping the player's attack box. -/
def c2enemy : Enemy := ⟨7, ⟨10, 0, 20, 20⟩⟩

/-- An attack in its recovery phase (inside the cancel-eligible window). -/
def c3state : HKCombat :=
  { player := scenarioPlayer, is_attacking := true
    attack_type := some AttackType.light, attack_phase := AttackPhase.recovery
    attack_timer := 15, attack_frame := 0, combo_count := 0, combo_timer := 3
    next_attack_queued := false, hit_enemies := [] }

/-- A combat-feel state in the middle of a hit-pause with cosmetic timers
still running. -/
def c9state : CombatFeel :=
  { CombatFeel.init with hit_pause_timer := 2, hit_pause_duration := 3
                         shake_intensity := 4, shake_duration := 6, shake_timer := 5
                         attack_lock_timer := 3, combo_timer := 7, combo_count := 1 }

/-- Heavy attack, third combo hit, aimed straight down (mouse below the
player): a normalized attack direction the code can produce. -/
def mDown : MeleeKnockbackState := ⟨12, true, 3, (0, 1)⟩

/-- Heavy attack, third combo hit, aimed straight right. -/
def mRight : MeleeKnockbackState := ⟨12, true, 3, (1, 0)⟩

/-- A single boss attack pattern off cooldown. -/
def bossPattern : BossAttackPattern := ⟨10, 30, 20, 30, false, 0, 180⟩

/-- Boss phase with threshold 1.0 (as built by `shadow_knight_boss.py` /
`arcane_sorcerer_boss.py`). -/
def bossPhase1 : BossPhase := ⟨1, 1, [bossPattern], 120, 1/5, false⟩

/-- Boss phase with threshold 0.66. -/
def bossPhase2 : BossPhase := ⟨2, 33/50, [bossPattern], 120, 3/10, false⟩

/-- Boss phase with threshold 0.33. -/
def bossPhase3 : BossPhase := ⟨3, 33/100, [bossPattern], 120, 2/5, false⟩

/-- A 100-health boss at full health with phases at thresholds
[1.0, 0.66, 0.33] (already in the descending order `add_phase` maintains),
idle and vulnerable — the C5 scenario start state. -/
def scenarioBoss : BaseBoss :=
  { max_health := 100, current_health := 100, velocity_x := 0, velocity_y := 0
    state := BossState.idle, state_timer := 0, state_frame := 0
    phases := [bossPhase1, bossPhase2, bossPhase3], current_phase_index := 0
    phase_transition_duration := 180, current_attack := Option.none
    attack_timer := 0, attack_cooldown := 0, is_invulnerable := false
    damage_flash_timer := 0, target_player := Option.none
    decision_timer := 0, decision_cooldown := 60, telegraph_alpha := 0
    shake_offset_x := 0, shake_offset_y := 0
    is_defeated := false, can_take_damage := true }

/-- The boss after defeat (`trigger_defeat` ran: state Defeated,
`can_take_damage` cleared). -/
def defeatedBoss : BaseBoss :=
  { scenarioBoss with current_health := 0, state := BossState.defeated
                      is_defeated := true, can_take_damage := false
                      damage_flash_timer := 4, attack_cooldown := 9 }

/-- An invulnerable boss (mid phase transition). -/
def invulnBoss : BaseBoss :=
  { scenarioBoss with current_health := 60, state := BossState.phase_transition
                      is_invulnerable := true }

/-- A state whose combo window is one tick from expiring. -/
def c6state : HKCombat := { c2state with combo_timer := 1, combo_count := 2 }

/-! ## Helper lemmas -/

/-- Field contract of `_start_attack`: it enters Windup with elapsed 0,
clears the hit-set, advances the combo by the `min(⋅+1, 2)` rule, and resets
the combo window, while leaving the attack type and queued flag alone. -/
theorem start_attack_proj (s : HKCombat) :
    (s.start_attack).attack_phase = AttackPhase.windup ∧
    (s.start_attack).attack_timer = 0 ∧
    (s.start_attack).is_attacking = true ∧
    (s.start_attack).combo_count =
      (if 0 < s.combo_timer then min (s.combo_count + 1) 2 else 0) ∧
    (s.start_attack).combo_timer = HKCombat.combo_window ∧
    (s.start_attack).attack_type = s.attack_type ∧
    (s.start_attack).hit_enemies = [] := by
  unfold HKCombat.start_attack
  dsimp only
  split_ifs <;> simp_all

/-- `_start_attack` keeps the combo count at or below the 3-hit ceiling. -/
theorem start_attack_combo_le (s : HKCombat) : (s.start_attack).combo_count ≤ 2 := by
  rw [(start_attack_proj s).2.2.2.1]
  split_ifs
  · exact min_le_right _ _
  · exact Nat.zero_le 2

/-- `_end_attack` preserves the combo ceiling. -/
theorem end_attack_combo_le (s : HKCombat) (h : s.combo_count ≤ 2) :
    (s.end_attack).combo_count ≤ 2 := by
  unfold HKCombat.end_attack
  split_ifs with h1
  · exact start_attack_combo_le _
  · exact h

/-- The combo block preserves the combo ceiling. -/
theorem tick_combo_combo_le (s : HKCombat) (h : s.combo_count ≤ 2) :
    (s.tick_combo).combo_count ≤ 2 := by
  unfold HKCombat.tick_combo
  dsimp only
  split_ifs <;> simp_all

/-- The attack block preserves the combo ceiling. -/
theorem tick_attack_combo_le (s : HKCombat) (h : s.combo_count ≤ 2) :
    (s.tick_attack).combo_count ≤ 2 := by
  unfold HKCombat.tick_attack
  dsimp only
  split_ifs <;> first | exact h | exact end_attack_combo_le _ h

/-- A combo window one tick from expiring clears the combo count and leaves
the timer at 0. -/
theorem tick_combo_reset (s : HKCombat) (h : s.combo_timer = 1) :
    (s.tick_combo).combo_count = 0 ∧ (s.tick_combo).combo_timer = 0 := by
  unfold HKCombat.tick_combo
  rw [h]
  norm_num

/-- With a cleared combo and closed window, the attack block keeps the combo
count at 0 (a queued restart re-runs the combo rule with a closed window). -/
theorem tick_attack_zero (s : HKCombat) (h0 : s.combo_count = 0)
    (ht : s.combo_timer = 0) : (s.tick_attack).combo_count = 0 := by
  unfold HKCombat.tick_attack HKCombat.end_attack
  dsimp only
  split_ifs <;> try exact h0
  all_goals
    rw [(start_attack_proj _).2.2.2.1]
    simp [ht]

/-! ## Claim C1 -/

/-- Claim C1: for every attack instance, `get_hitbox()` returns a non-null
hitbox if and only if the instance's phase is Active; in every other phase
(None/Idle, Windup, Recovery) it returns null. -/
theorem c1_hitbox_iff_active (s : HKCombat) :
    (s.get_hitbox).isSome = true ↔ s.attack_phase = AttackPhase.active := by
  constructor
  · intro hs
    by_contra hne
    simp [HKCombat.get_hitbox, hne] at hs
  · intro ha
    simp only [HKCombat.get_hitbox, ha, ne_eq, not_true_eq_false, if_false]
    split
    · rfl
    · split <;> rfl

/-! ## Claim C2 -/

/-- Claim C2: once a target's identity is in the instance's hit-set, every
further `check_hit` against that target returns `False` with the state fully
unchanged — a silent no-op that deals no damage (damage is only applied by the
caller on a `True` result) and raises no error. -/
theorem c2_hit_at_most_once (s : HKCombat) (e : Enemy) (h : e.ident ∈ s.hit_enemies) :
    s.check_hit e = (false, s) := by
  unfold HKCombat.check_hit
  by_cases h1 : (!s.is_attacking ∨ s.attack_phase ≠ AttackPhase.active)
  · rw [if_pos h1]
  · rw [if_neg h1, if_pos h]

/-- Witness for C2 at a concrete already-hit pair. -/
theorem c2_hit_at_most_once_witness :
    c2enemy.ident ∈ c2state.hit_enemies ∧ c2state.check_hit c2enemy = (false, c2state) :=
  ⟨by decide, c2_hit_at_most_once c2state c2enemy (by decide)⟩

/-! ## Claim C3 -/

/-- Claim C3 counterexample: in the recovery phase — squarely inside the
cancel-eligible window — `try_attack` returns `False` (the claim requires
`True` with a reset to Windup) and, contrary to "mutates no state" on a
`False` return, it sets the queued-next-attack flag. -/
theorem c3_counterexample :
    c3state.in_cancel_window = true ∧
    (c3state.try_attack false false).1 = false ∧
    (c3state.try_attack false false).2.next_attack_queued = true ∧
    c3state.next_attack_queued = false := by
  refine ⟨by decide, ?_, ?_, rfl⟩ <;> rfl

/-- Claim C3 (amended): `try_attack` returns `True` iff no attack is in
progress, and then resets the phase to Windup with elapsed = 0.  While an
attack is in progress it returns `False`; inside the cancel-eligible window
(late Active, i.e. elapsed > 0.6 × active duration, or Recovery) the only
mutation is setting the queued-next-attack flag — the queued attack then
starts automatically when the current attack ends — and outside that window
no state is mutated. -/
theorem c3_start_contract (s : HKCombat) (heavy is_up : Bool) :
    (s.is_attacking = false →
       (s.try_attack heavy is_up).1 = true ∧
       (s.try_attack heavy is_up).2.attack_phase = AttackPhase.windup ∧
       (s.try_attack heavy is_up).2.attack_timer = 0) ∧
    (s.is_attacking = true →
       (s.try_attack heavy is_up).1 = false ∧
       (s.in_cancel_window = true →
          (s.try_attack heavy is_up).2 = { s with next_attack_queued := true }) ∧
       (s.in_cancel_window = false → (s.try_attack heavy is_up).2 = s)) := by
  constructor
  · intro h
    have hni : ¬ (s.is_attacking = true) := by rw [h]; exact Bool.false_ne_true
    unfold HKCombat.try_attack
    rw [if_neg hni]
    dsimp only
    split_ifs <;>
      exact ⟨rfl, (start_attack_proj _).1, (start_attack_proj _).2.1⟩
  · intro h
    unfold HKCombat.try_attack
    rw [if_pos h]
    refine ⟨?_, ?_, ?_⟩
    · split_ifs <;> rfl
    · intro hc
      rw [if_pos hc]
    · intro hc
      have hnc : ¬ (s.in_cancel_window = true) := by rw [hc]; exact Bool.false_ne_true
      rw [if_neg hnc]

/-- Witness for C3 (amended) at a fresh idle instance and at the recovery
state above. -/
theorem c3_start_contract_witness :
    ((HKCombat.init scenarioPlayer).is_attacking = false ∧
       (((HKCombat.init scenarioPlayer).try_attack false false).1 = true ∧
        ((HKCombat.init scenarioPlayer).try_attack false false).2.attack_phase =
          AttackPhase.windup ∧
        ((HKCombat.init scenarioPlayer).try_attack false false).2.attack_timer = 0)) ∧
    (c3state.is_attacking = true ∧
       (c3state.try_attack false false).1 = false) :=
  ⟨⟨rfl, (c3_start_contract (HKCombat.init scenarioPlayer) false false).1 rfl⟩,
   ⟨rfl, ((c3_start_contract c3state false false).2 rfl).1⟩⟩

/-! ## Claim C6 -/

/-- Claim C6: `combo_count` always stays within `0 ≤ combo_count ≤ 2`
(`max_chain - 1` for the 3-hit chain): it is 0 initially, every start sets it
to `min(combo_count + 1, 2)` when the combo window is open and to 0 otherwise,
the window timer reaching 0 resets it to 0, and every operation preserves the
bound (the lower bound is inherent to `Nat`). -/
theorem c6_combo_bounds :
    (∀ s : HKCombat, (s.start_attack).combo_count =
        (if 0 < s.combo_timer then min (s.combo_count + 1) 2 else 0)) ∧
    (∀ p : PlayerState, (HKCombat.init p).combo_count = 0) ∧
    (∀ s : HKCombat, s.combo_timer = 1 → (s.update).combo_count = 0) ∧
    (∀ s : HKCombat, s.combo_count ≤ 2 → (s.update).combo_count ≤ 2) ∧
    (∀ s : HKCombat, ∀ heavy is_up : Bool, s.combo_count ≤ 2 →
        ((s.try_attack heavy is_up).2).combo_count ≤ 2) ∧
    (∀ s : HKCombat, ∀ e : Enemy, s.combo_count ≤ 2 →
        ((s.check_hit e).2).combo_count ≤ 2) := by
  refine ⟨fun s => (start_attack_proj s).2.2.2.1, fun p => rfl, ?_, ?_, ?_, ?_⟩
  · intro s h
    exact tick_attack_zero _ (tick_combo_reset s h).1 (tick_combo_reset s h).2
  · intro s h
    exact tick_attack_combo_le _ (tick_combo_combo_le _ h)
  · intro s heavy is_up h
    unfold HKCombat.try_attack
    dsimp only
    split_ifs <;> first | exact h | exact start_attack_combo_le _
  · intro s e h
    unfold HKCombat.check_hit
    by_cases h1 : (!s.is_attacking ∨ s.attack_phase ≠ AttackPhase.active)
    · rw [if_pos h1]; exact h
    · rw [if_neg h1]
      by_cases h2 : e.ident ∈ s.hit_enemies
      · rw [if_pos h2]; exact h
      · rw [if_neg h2]
        cases hg : s.get_hitbox with
        | none => simp only [hg]; exact h
        | some hb => simp only [hg]; split_ifs <;> exact h

/-- Witness for C6 at concrete states (an expiring combo window and a
mid-attack state at the combo ceiling). -/
theorem c6_combo_bounds_witness :
    (c6state.combo_timer = 1 ∧ (c6state.update).combo_count = 0) ∧
    (c6state.combo_count ≤ 2 ∧ (c6state.update).combo_count ≤ 2 ∧
       ((c6state.try_attack false false).2).combo_count ≤ 2 ∧
       ((c6state.check_hit c2enemy).2).combo_count ≤ 2) :=
  ⟨⟨rfl, c6_combo_bounds.2.2.1 c6state rfl⟩,
   ⟨by decide, c6_combo_bounds.2.2.2.1 c6state (by decide),
    c6_combo_bounds.2.2.2.2.1 c6state false false (by decide),
    c6_combo_bounds.2.2.2.2.2 c6state c2enemy (by decide)⟩⟩

/-! ## Claim C7 -/

/-- Claim C7: a light attack (windup/active/recovery = 4/8/10) started at
tick 0 has a null hitbox on ticks 0–3, a non-null hitbox on ticks 4–11, a
null hitbox on ticks 12–21, and is back in the Idle (`NONE`) phase at
tick 22. -/
theorem c7_light_attack_timeline :
    ((List.range 23).all fun n =>
       ((lightAt n).get_hitbox).isSome == decide (4 ≤ n ∧ n ≤ 11)) = true ∧
    (lightAt 22).attack_phase = AttackPhase.none ∧
    (lightAt 22).is_attacking = false := by
  refine ⟨by decide, by decide, by decide⟩

/-! ## Claim C8 -/

/-- Claim C8 counterexample: with base_knockback = 12, a heavy attack and
combo_count = 3, an attack aimed straight down produces the knockback vector
(0, 16.144): the 0.7× vertical damping and the −2 vertical offset shrink the
magnitude to 16.144, which differs from the claimed 25.92 by 9.776 — far more
than any small epsilon (the squared magnitude is below (25.92 − 1)²). -/
theorem c8_counterexample :
    mDown.calculate_knockback = (0, 2018/125) ∧
    sqMag mDown.calculate_knockback < ((648 : ℚ)/25 - 1) ^ 2 := by
  have h : mDown.calculate_knockback = (0, 2018/125) := by
    unfold MeleeKnockbackState.calculate_knockback mDown
    norm_num
  refine ⟨h, ?_⟩
  rw [sqMag, h]
  norm_num

/-- Claim C8 (amended): the scalar knockback force — the factor applied to
the normalized attack direction — equals 12 × 1.8 × (1 + 2 × 0.1) = 25.92
exactly, for every attack direction.  The emitted vector additionally damps
the vertical component to 0.7× and offsets it by −2, so only its horizontal
part carries the full 25.92: for a horizontal attack the vector is
(25.92, −2), whose magnitude lies within 0.1 of 25.92
(25.92 ≤ √675.8464 < 26.02), while steeper aims deviate further. -/
theorem c8_knockback_force :
    (∀ d : ℚ × ℚ, (MeleeKnockbackState.mk 12 true 3 d).knockback_force = 648/25) ∧
    mRight.calculate_knockback = (648/25, -2) ∧
    ((648 : ℚ)/25) ^ 2 ≤ sqMag mRight.calculate_knockback ∧
    sqMag mRight.calculate_knockback < ((2602 : ℚ)/100) ^ 2 := by
  have h : mRight.calculate_knockback = (648/25, -2) := by
    unfold MeleeKnockbackState.calculate_knockback mRight
    norm_num
  refine ⟨?_, h, ?_, ?_⟩
  · intro d
    unfold MeleeKnockbackState.knockback_force
    norm_num
  · rw [sqMag, h]
    norm_num
  · rw [sqMag, h]
    norm_num

/-! ## Claim C9 -/

/-- Claim C9 counterexample: during a frozen tick (hit-pause counter 2) the
update signals the pause and decrements its own counter, but the cosmetic
timers — screen shake and the combo timer — are NOT decremented (the method
returns early), contradicting the claim that they still tick. -/
theorem c9_counterexample :
    0 < c9state.hit_pause_timer ∧
    (c9state.update).1 = true ∧
    (c9state.update).2.shake_timer = c9state.shake_timer ∧
    (c9state.update).2.combo_timer = c9state.combo_timer ∧
    (c9state.update).2.attack_lock_timer = c9state.attack_lock_timer ∧
    (c9state.update).2.hit_pause_timer = c9state.hit_pause_timer - 1 := by
  refine ⟨by decide, rfl, rfl, rfl, rfl, rfl⟩

/-- Claim C9 (amended): while the hit-pause counter is greater than 0, a tick
skips the gameplay portion of the update (signalled by the `True` pause
return) and decrements only the hit-pause counter itself; every other
combat-feel field — including the cosmetic screen-shake and combo timers —
is left unchanged until the freeze ends. -/
theorem c9_hit_pause_freeze (c : CombatFeel) (h : 0 < c.hit_pause_timer) :
    c.update = (true, { c with hit_pause_timer := c.hit_pause_timer - 1 }) := by
  unfold CombatFeel.update
  rw [if_pos h]

/-- Witness for C9 (amended) at the concrete frozen state. -/
theorem c9_hit_pause_freeze_witness :
    0 < c9state.hit_pause_timer ∧
    c9state.update = (true, { c9state with hit_pause_timer := c9state.hit_pause_timer - 1 }) :=
  ⟨by decide, c9_hit_pause_freeze c9state (by decide)⟩

/-! ## Boss helper lemmas -/

/-- `take_damage` is the identity whenever the guard fires. -/
theorem take_damage_guard (b : BaseBoss) (damage : Int) (kx ky : ℚ)
    (h : b.is_invulnerable = true ∨ b.can_take_damage = false) :
    b.take_damage damage kx ky = b := by
  unfold BaseBoss.take_damage
  rw [if_pos h]

/-- `check_phase_transition` only ever touches `current_phase_index`. -/
theorem check_pt_fields (b : BaseBoss) :
    (b.check_phase_transition).2.current_health = b.current_health ∧
    (b.check_phase_transition).2.can_take_damage = b.can_take_damage ∧
    (b.check_phase_transition).2.is_defeated = b.is_defeated ∧
    (b.check_phase_transition).2.state = b.state := by
  unfold BaseBoss.check_phase_transition
  split
  · exact ⟨rfl, rfl, rfl, rfl⟩
  · split
    · exact ⟨rfl, rfl, rfl, rfl⟩
    · split_ifs <;> exact ⟨rfl, rfl, rfl, rfl⟩

/-- `trigger_phase_transition` leaves health, the damage flags and the defeat
flag alone. -/
theorem trigger_pt_fields (b : BaseBoss) :
    (b.trigger_phase_transition).current_health = b.current_health ∧
    (b.trigger_phase_transition).can_take_damage = b.can_take_damage ∧
    (b.trigger_phase_transition).is_defeated = b.is_defeated := by
  unfold BaseBoss.trigger_phase_transition
  dsimp only
  split <;> exact ⟨rfl, rfl, rfl⟩

/-- `apply_hit` subtracts exactly the damage from health and preserves the
damage-permission and defeat flags. -/
theorem apply_hit_fields (b : BaseBoss) (damage : Int) (kx ky : ℚ) :
    (b.apply_hit damage kx ky).current_health = b.current_health - damage ∧
    (b.apply_hit damage kx ky).can_take_damage = b.can_take_damage ∧
    (b.apply_hit damage kx ky).is_defeated = b.is_defeated := by
  unfold BaseBoss.apply_hit
  dsimp only
  split_ifs with hr
  · exact ⟨(trigger_pt_fields _).1.trans (check_pt_fields _).1,
      (trigger_pt_fields _).2.1.trans (check_pt_fields _).2.1,
      (trigger_pt_fields _).2.2.trans (check_pt_fields _).2.2.1⟩
  · exact ⟨(check_pt_fields _).1, (check_pt_fields _).2.1, (check_pt_fields _).2.2.1⟩

/-- The pre-dispatch part of a boss tick never changes the state tag, health,
defeat flags, invulnerability or phase index. -/
theorem tick_pre_fields (b : BaseBoss) (pid : ℕ) :
    (b.tick_pre pid).state = b.state ∧
    (b.tick_pre pid).current_health = b.current_health ∧
    (b.tick_pre pid).is_defeated = b.is_defeated ∧
    (b.tick_pre pid).can_take_damage = b.can_take_damage ∧
    (b.tick_pre pid).is_invulnerable = b.is_invulnerable ∧
    (b.tick_pre pid).current_phase_index = b.current_phase_index := by
  unfold BaseBoss.tick_pre
  dsimp only
  split_ifs <;> exact ⟨rfl, rfl, rfl, rfl, rfl, rfl⟩

/-! ## Claim C10 -/

/-- Claim C10: while a boss is invulnerable or its `can_take_damage` flag is
false, `take_damage` is atomically a no-op — health, velocity, the damage
flash timer, the phase index and the state machine are all left unchanged,
for every damage amount and knockback vector (the returned state is the input
state itself). -/
theorem c10_invulnerable_noop (b : BaseBoss) (damage : Int) (kx ky : ℚ)
    (h : b.is_invulnerable = true ∨ b.can_take_damage = false) :
    b.take_damage damage kx ky = b :=
  take_damage_guard b damage kx ky h

/-- Witness for C10 at a concrete invulnerable boss with a nonzero hit. -/
theorem c10_invulnerable_noop_witness :
    invulnBoss.is_invulnerable = true ∧
    invulnBoss.take_damage 50 3 (-2) = invulnBoss :=
  ⟨rfl, c10_invulnerable_noop invulnBoss 50 3 (-2) (Or.inl rfl)⟩

/-! ## Claim C4 -/

/-- Claim C4 counterexample: ticking a Defeated boss is not state-change-free:
the state-machine tick still increments `state_frame` and still decrements
the damage-flash timer (and running pattern cooldowns), so "no state change"
fails even though the boss stays Defeated. -/
theorem c4_counterexample :
    defeatedBoss.state = BossState.defeated ∧
    (defeatedBoss.update_state_machine 0 0 0 0 0).state_frame ≠ defeatedBoss.state_frame ∧
    (defeatedBoss.update_state_machine 0 0 0 0 0).damage_flash_timer ≠
      defeatedBoss.damage_flash_timer := by
  refine ⟨rfl, by decide, by decide⟩

/-- `check_phase_transition` is a no-decision no-op when the looked-up phase
index is already the current one. -/
theorem check_pt_self (b : BaseBoss) (h : b.current_phase_idx = some b.current_phase_index) :
    b.check_phase_transition = (false, b) := by
  unfold BaseBoss.check_phase_transition
  rw [h]
  dsimp only
  cases hpg : b.phases[b.current_phase_index]? with
  | none => rfl
  | some ph => simp

/-- The phase lookup lands on the head phase whenever the health fraction is
at or below the head threshold. -/
theorem current_phase_idx_first (b : BaseBoss) (p : BossPhase) (rest : List BossPhase)
    (hp : b.phases = p :: rest) (h : b.health_percent ≤ p.health_threshold) :
    b.current_phase_idx = some 0 := by
  unfold BaseBoss.current_phase_idx
  rw [hp]
  simp [List.findIdx?_cons, h]

/-- Claim C4 (amended): once health reaches 0 or below, `take_damage` enters
the terminal Defeated state (health clamped to 0, `can_take_damage` cleared);
from then on every further `take_damage` call is a complete no-op, and
ticking the state machine on a Defeated boss never raises an error, never
leaves Defeated, and never changes health, the defeat flags or
invulnerability — only frame counters and cooldown timers keep advancing. -/
theorem c4_defeated_terminal :
    (∀ b : BaseBoss, ∀ damage : Int, ∀ kx ky : ℚ,
        b.can_take_damage = false → b.take_damage damage kx ky = b) ∧
    (∀ b : BaseBoss, ∀ damage : Int, ∀ kx ky : ℚ,
        b.is_invulnerable = false → b.can_take_damage = true →
        b.current_health - damage ≤ 0 →
        (b.take_damage damage kx ky).state = BossState.defeated ∧
        (b.take_damage damage kx ky).is_defeated = true ∧
        (b.take_damage damage kx ky).can_take_damage = false ∧
        (b.take_damage damage kx ky).current_health = 0) ∧
    (∀ b : BaseBoss, ∀ pid : ℕ, ∀ u : ℚ, ∀ choice : ℕ, ∀ sx sy : Int,
        b.state = BossState.defeated →
        (b.update_state_machine pid u choice sx sy).state = BossState.defeated ∧
        (b.update_state_machine pid u choice sx sy).current_health = b.current_health ∧
        (b.update_state_machine pid u choice sx sy).is_defeated = b.is_defeated ∧
        (b.update_state_machine pid u choice sx sy).can_take_damage = b.can_take_damage ∧
        (b.update_state_machine pid u choice sx sy).is_invulnerable = b.is_invulnerable) := by
  refine ⟨?_, ?_, ?_⟩
  · intro b damage kx ky h
    exact take_damage_guard b damage kx ky (Or.inr h)
  · intro b damage kx ky h1 h2 h3
    have hno : ¬ (b.is_invulnerable = true ∨ b.can_take_damage = false) := by
      rintro (h | h)
      · rw [h1] at h
        exact Bool.false_ne_true h
      · rw [h2] at h
        exact Bool.noConfusion h
    unfold BaseBoss.take_damage
    rw [if_neg hno]
    dsimp only
    rw [if_pos (by rw [(apply_hit_fields b damage kx ky).1]; exact h3)]
    exact ⟨rfl, rfl, rfl, rfl⟩
  · intro b pid u choice sx sy h
    have hp := tick_pre_fields b pid
    have hs : (b.tick_pre pid).state = BossState.defeated := by rw [hp.1, h]
    unfold BaseBoss.update_state_machine
    dsimp only
    rw [hs]
    exact ⟨hp.1.trans h, hp.2.1, hp.2.2.1, hp.2.2.2.1, hp.2.2.2.2.1⟩

/-- Witness for C4 (amended): a lethal hit on the full-health scenario boss
defeats it, further damage on the defeated boss is a no-op, and a tick keeps
it Defeated with unchanged health. -/
theorem c4_defeated_terminal_witness :
    (defeatedBoss.take_damage 5 1 1 = defeatedBoss) ∧
    ((scenarioBoss.take_damage 200 0 0).state = BossState.defeated ∧
       (scenarioBoss.take_damage 200 0 0).current_health = 0) ∧
    ((defeatedBoss.update_state_machine 0 0 0 0 0).state = BossState.defeated ∧
       (defeatedBoss.update_state_machine 0 0 0 0 0).current_health =
         defeatedBoss.current_health) :=
  ⟨c4_defeated_terminal.1 defeatedBoss 5 1 1 rfl,
   ⟨(c4_defeated_terminal.2.1 scenarioBoss 200 0 0 rfl rfl (by norm_num [scenarioBoss])).1,
    (c4_defeated_terminal.2.1 scenarioBoss 200 0 0 rfl rfl (by norm_num [scenarioBoss])).2.2.2⟩,
   ⟨(c4_defeated_terminal.2.2 defeatedBoss 0 0 0 0 0 rfl).1,
    (c4_defeated_terminal.2.2 defeatedBoss 0 0 0 0 0 rfl).2.1⟩⟩

/-! ## Claim C5 -/

/-- Claim C5 shows a code bug: a hit dropping the scenario boss (phases at
thresholds [1.0, 0.66, 0.33]) from 100% to 65% health fires NO phase
transition.  `get_current_phase` walks the descending-threshold list and
returns the first phase with `health_percent <= threshold`, which for any
health fraction ≤ 1 is always the threshold-1.0 phase, so the computed phase
index never moves off 0: `current_phase_index` stays 0, no invulnerability is
set and the state machine stays in Idle — contradicting the claimed
transition to phase index 1 with a 180-tick invulnerability window, and the
code's own docstring "health_threshold: HP% when this phase activates". -/
theorem c5_phase_transition_never_fires :
    (scenarioBoss.take_damage 35 0 0).current_health = 65 ∧
    (scenarioBoss.take_damage 35 0 0).current_phase_index = 0 ∧
    (scenarioBoss.take_damage 35 0 0).is_invulnerable = false ∧
    (scenarioBoss.take_damage 35 0 0).state = BossState.idle := by
  have hguard : ¬ (scenarioBoss.is_invulnerable = true ∨ scenarioBoss.can_take_damage = false) := by
    rintro (h | h) <;> exact Bool.noConfusion h
  unfold BaseBoss.take_damage
  rw [if_neg hguard]
  dsimp only
  unfold BaseBoss.apply_hit
  dsimp only
  rw [check_pt_self _ (current_phase_idx_first _ bossPhase1 [bossPhase2, bossPhase3] rfl
    (by norm_num [BaseBoss.health_percent, scenarioBoss, bossPhase1]))]
  dsimp only
  rw [if_neg (by norm_num [scenarioBoss])]
  exact ⟨rfl, rfl, rfl, rfl⟩
